import Mathlib

/-!
Shallow embedding of the quantization-toolkit sources:
  * model_compression_toolkit/gptq/common/gptq_config.py
  * model_compression_toolkit/exporter/model_wrapper/keras/builder/node_to_dispatcher.py
  * tests/keras_tests/feature_networks_tests/feature_networks/second_moment_correction_test.py

Python conventions used throughout the embedding:
  * a Python `int` is modelled as `Int`; `None` as `Option.none`;
  * values the code stores but never inspects (optimizers, loss callables,
    log functions) are modelled by the opaque one-value type `PyAny`;
  * a call to `common.Logger.error` is modelled as aborting with an error
    (`Except.error`): the logger itself is not part of the sampled sources,
    and the specification states that configuration errors are
    "logged as error and must halt construction, not proceed with a
    silently-wrong config";
  * Python floats that the claims never compute with (`eps`) are carried as
    rationals.
-/

set_option autoImplicit false

namespace MCT

/-- Opaque placeholder for Python values the embedded code stores but never
inspects (optimizers, callables, log functions). -/
inductive PyAny
  | obj
deriving DecidableEq, Repr

/-- Errors surfaced by the embedded Python code.  `configurationError`
corresponds to a fatal `common.Logger.error` call; `typeError` and
`zeroDivisionError` are the built-in Python exceptions of those names. -/
inductive PyError
  | configurationError (msg : String)
  | typeError (msg : String)
  | zeroDivisionError (msg : String)
deriving DecidableEq, Repr

/-- `RoundingType` from gptq_config.py: the enum choosing the GPTQ rounding
method (0 = straight-through estimator, 1 = SoftQuantizer). -/
inductive RoundingType
  | STE
  | SoftQuantizer
deriving DecidableEq, Repr

/-- Modelled from the spec: the module gptq_quantizer_config.py is not among
the sampled sources; the spec describes a nested quantizer-specific config
whose concrete runtime type must match the chosen rounding policy, with
`SoftQuantizerConfig` a subclass of `GPTQQuantizerConfig` (the source comment
in `_verify_quantizer_config` confirms the inheritance).  `PyClass` is the
runtime type tag of a quantizer-config object: the two named classes, an
arbitrary further strict subclass of `GPTQQuantizerConfig`, and a type
unrelated to the hierarchy. -/
inductive PyClass
  | GPTQQuantizerConfig
  | SoftQuantizerConfig
  | OtherGPTQSubclass
  | UnrelatedType
deriving DecidableEq, Repr

/-- Python `isinstance(x, GPTQQuantizerConfig)` on an object whose runtime
type tag is `c`: true for the class itself and for its (strict) subclasses
`SoftQuantizerConfig` and `OtherGPTQSubclass`. -/
def PyClass.isInstanceOfGPTQQuantizerConfig : PyClass → Bool
  | PyClass.GPTQQuantizerConfig => true
  | PyClass.SoftQuantizerConfig => true
  | PyClass.OtherGPTQSubclass => true
  | PyClass.UnrelatedType => false

/-- Modelled from the spec: a quantizer-config object, carrying its runtime
type tag and the `n_batches` field that `SoftQuantizerConfig` holds (the
batch count controlling the soft-rounding anneal schedule, read by
`get_extended_quantizer_parametes`). -/
structure QuantizerConfig where
  ty : PyClass
  n_batches : Int
deriving DecidableEq, Repr

/-- The default argument `quantizer_config = SoftQuantizerConfig()` of both
constructors (the concrete `n_batches` default is immaterial to the claims). -/
def defaultSoftQuantizerConfig : QuantizerConfig :=
  { ty := PyClass.SoftQuantizerConfig, n_batches := 50 }

/-- Modelled from the spec: `DefaultDict` (core.common.defaultdict, not among
the sampled sources) is "a mapping with a per-key fallback-value factory"
where "most bit widths share a default but specific ones may be overridden".
`known` holds the explicitly set key/value pairs, `default_value` the result
of the factory (`lambda: 1` in the default argument). -/
structure DefaultDict where
  known : List (Int × Int)
  default_value : Int
deriving DecidableEq, Repr

/-- Lookup in a `DefaultDict`: the explicitly set value when the key is
known, otherwise the factory default. -/
def DefaultDict.getKey (d : DefaultDict) (k : Int) : Int :=
  match List.lookup k d.known with
  | some v => v
  | none => d.default_value

/-- Python dict assignment `d[k] = v` on a `DefaultDict`. -/
def DefaultDict.setKey (d : DefaultDict) (k v : Int) : DefaultDict :=
  { d with known := (k, v) :: d.known }

/-- The value of the default argument `DefaultDict` of an empty dict with
factory `lambda: 1`: an empty override table with fallback value 1. -/
def defaultLsbChange : DefaultDict :=
  { known := [], default_value := 1 }

/-- The fields a `GradientPTQConfig` instance holds, in the assignment order
of `GradientPTQConfig.__init__` in gptq_config.py.  The same record doubles
as the argument list of the constructor, whose checks are in
`GradientPTQConfig.construct` below.  `n_iter` is an `Option` because
`GradientPTQConfigV2.__init__` passes `n_iter=None` to the superclass. -/
structure GradientPTQConfig where
  n_iter : Option Int
  optimizer : PyAny
  optimizer_rest : PyAny
  loss : PyAny
  log_function : PyAny
  train_bias : Bool
  quantization_parameters_learning : Bool
  rounding_type : RoundingType
  lsb_change_per_bit_width : DefaultDict
  eps : Rat
  use_jac_based_weights : Bool
  num_samples_for_loss : Int
  norm_weights : Bool
  optimizer_quantization_parameter : PyAny
  optimizer_bias : PyAny
  log_norm : Bool
  weights_n_iter : Int
  quantizer_config : QuantizerConfig
deriving DecidableEq, Repr

/-- `GradientPTQConfig._verify_quantizer_config` from gptq_config.py:
for SoftQuantizer rounding the quantizer config must be exactly of type
`SoftQuantizerConfig`; otherwise (STE) exactly of type
`GPTQQuantizerConfig`.  The source deliberately compares `type(...)` and not
`isinstance` "to exclude instance equality because of inheritance". -/
def GradientPTQConfig.verify_quantizer_config
    (quantizer_config : QuantizerConfig) (rounding_type : RoundingType) : Bool :=
  if rounding_type = RoundingType.SoftQuantizer then
    decide (quantizer_config.ty = PyClass.SoftQuantizerConfig)
  else
    decide (quantizer_config.ty = PyClass.GPTQQuantizerConfig)

/-- The message of the `Logger.error` call guarding quantization-parameter
learning with STE rounding in `GradientPTQConfig.__init__`. -/
def steQplErrorMsg : String :=
  "Quantization parameters learning is not supported with STE rounding."

/-- The message of the `Logger.error` call rejecting a mismatched quantizer
config in `GradientPTQConfig.__init__` (the f-string interpolating the
config type and the rounding type). -/
def mismatchErrorMsg (ty : PyClass) (rounding_type : RoundingType) : String :=
  "Quantizer config of type " ++ reprStr ty ++
    " is not suitable for rounding type " ++ reprStr rounding_type

/-- `GradientPTQConfig.__init__` from gptq_config.py.  The field assignments
are the identity on the argument record; what remains are the two guards:
(1) quantization-parameter learning together with STE rounding is an error;
(2) the quantizer config must pass `_verify_quantizer_config`, else an error
(and `self.quantizer_config` is never assigned).  Per the spec, both
`Logger.error` calls are fatal, so construction yields `Except.error` and no
usable instance. -/
def GradientPTQConfig.construct (a : GradientPTQConfig) :
    Except PyError GradientPTQConfig :=
  if a.quantization_parameters_learning = true ∧ a.rounding_type = RoundingType.STE then
    Except.error (PyError.configurationError steQplErrorMsg)
  else if GradientPTQConfig.verify_quantizer_config a.quantizer_config a.rounding_type then
    Except.ok a
  else
    Except.error (PyError.configurationError
      (mismatchErrorMsg a.quantizer_config.ty a.rounding_type))

/-- A `GradientPTQConfigV2` instance: the inherited `GradientPTQConfig`
fields plus `n_epochs`, mirroring `class GradientPTQConfigV2(GradientPTQConfig)`. -/
structure GradientPTQConfigV2 extends GradientPTQConfig where
  n_epochs : Int
deriving DecidableEq, Repr

/-- `GradientPTQConfigV2.__init__` from gptq_config.py: calls the superclass
constructor with `n_iter=None` and all other arguments forwarded, then sets
`self.n_epochs`. -/
def GradientPTQConfigV2.construct (a : GradientPTQConfigV2) :
    Except PyError GradientPTQConfigV2 :=
  match GradientPTQConfig.construct { a.toGradientPTQConfig with n_iter := none } with
  | Except.error e => Except.error e
  | Except.ok base => Except.ok ⟨base, a.n_epochs⟩

/-- Python `int(round(k) / p)` for integers `k`, `p`: `round` is the identity
on an int, `/` is true division and `int(...)` truncates toward zero, i.e.
`Int.tdiv` (idealizing the binary float quotient as exact, which it is for
the magnitudes involved here).  Dividing by zero and rounding `None` raise. -/
def pythonIntOfRoundDiv (k : Option Int) (p : Int) : Except PyError Int :=
  match k with
  | none => Except.error (PyError.typeError
      "type NoneType does not define a rounding method")
  | some k =>
    if p = 0 then
      Except.error (PyError.zeroDivisionError "division by zero")
    else
      Except.ok (Int.tdiv k p)

/-- `GradientPTQConfigV2.from_v1` from gptq_config.py: computes
`n_epochs = int(round(config_v1.n_iter) / n_ptq_iter)` and re-invokes the V2
constructor with every field of `config_v1` except `n_iter` (the source
copies `config_v1.__dict__` and drops the `n_iter` entry), which re-runs the
construction-time checks. -/
def GradientPTQConfigV2.from_v1 (n_ptq_iter : Int) (config_v1 : GradientPTQConfig) :
    Except PyError GradientPTQConfigV2 :=
  match pythonIntOfRoundDiv config_v1.n_iter n_ptq_iter with
  | Except.error e => Except.error e
  | Except.ok n_epochs => GradientPTQConfigV2.construct ⟨config_v1, n_epochs⟩

/-- The method names defined in the class body of `GradientPTQConfig`
(gptq_config.py): the constructor and the private verification helper. -/
def GradientPTQConfig.methodNames : List String :=
  ["__init__", "_verify_quantizer_config"]

/-- The method names a `GradientPTQConfigV2` instance can resolve: the ones
of its own class body (constructor, the `from_v1` classmethod and
`get_extended_quantizer_parametes`) followed, per Python attribute lookup,
by the inherited ones of `GradientPTQConfig`. -/
def GradientPTQConfigV2.methodNames : List String :=
  ["__init__", "from_v1", "get_extended_quantizer_parametes"] ++
    GradientPTQConfig.methodNames

/-- Values appearing in the parameter dictionary returned by
`get_extended_quantizer_parametes`. -/
inductive ParamValue
  | ofInt (n : Int)
  | ofBool (b : Bool)
  | ofDefaultDict (d : DefaultDict)
deriving DecidableEq, Repr

/-- Modelled from the spec: the string constants of gptq_constants.py (not
among the sampled sources); the exact spellings are immaterial to the
claims, which only speak of the keys for the batch count,
quantization-parameter learning, epoch count and the max-LSB mapping. -/
def N_BATCHES_STR : String := "n_batches"

/-- Modelled from the spec: the gptq_constants.py key for the
quantization-parameter-learning flag. -/
def QUANT_PARAM_LEARNING_STR : String := "quant_param_learning"

/-- Modelled from the spec: the gptq_constants.py key for the epoch count. -/
def N_EPOCHS_STR : String := "n_epochs"

/-- Modelled from the spec: the gptq_constants.py key for the max-LSB-change
mapping. -/
def MAX_LSB_STR : String := "max_lsbs_change_map"

/-- `GradientPTQConfigV2.get_extended_quantizer_parametes` from
gptq_config.py (defined only on the V2 class): for SoftQuantizer rounding
the batch count, the quantization-parameter-learning flag and the epoch
count; for STE rounding the max-LSB mapping; an empty dict otherwise (dead
with the two-member `RoundingType`, kept to mirror the source). -/
def GradientPTQConfigV2.get_extended_quantizer_parametes
    (c : GradientPTQConfigV2) : List (String × ParamValue) :=
  if c.rounding_type = RoundingType.SoftQuantizer then
    [(N_BATCHES_STR, ParamValue.ofInt c.quantizer_config.n_batches),
     (QUANT_PARAM_LEARNING_STR, ParamValue.ofBool c.quantization_parameters_learning),
     (N_EPOCHS_STR, ParamValue.ofInt c.n_epochs)]
  else if c.rounding_type = RoundingType.STE then
    [(MAX_LSB_STR, ParamValue.ofDefaultDict c.lsb_change_per_bit_width)]
  else
    []

/-! ### Graph model for the second-moment-correction claims

The Graph IR itself (core.common.graph) is not among the sampled sources;
only the second-moment test drives it.  The model keeps exactly what those
claims inspect: per-node batch-normalization weights, the node name, and
whether the layer class is BatchNormalization. -/

/-- The four batch-normalization weights the second-moment test reads via
`get_weights_by_keys` (keys GAMMA, BETA, MOVING_MEAN, MOVING_VARIANCE),
idealized as rationals. -/
structure BNParams where
  gamma : Rat
  beta : Rat
  moving_mean : Rat
  moving_variance : Rat
deriving DecidableEq, Repr

/-- A graph node as seen by the second-moment test: its name, whether its
layer class is BatchNormalization, and its batch-normalization weights
(meaningful only when `layer_is_bn` is true). -/
structure Node where
  name : String
  layer_is_bn : Bool
  bn : BNParams
deriving DecidableEq, Repr

/-- Modelled from the spec: the Graph owns its set of nodes; iteration order
is insertion order for reproducibility. -/
structure Graph where
  nodes : List Node
deriving DecidableEq, Repr

/-- A Python sequence value as returned to the caller: either a list
(ordered, subscriptable) or a set (unordered, not subscriptable). -/
inductive PySeq
  | pylist (xs : List Node)
  | pyset (xs : List Node)
deriving DecidableEq, Repr

/-- Whether a `PySeq` is a Python set. -/
def PySeq.isSet : PySeq → Bool
  | PySeq.pylist _ => false
  | PySeq.pyset _ => true

/-- Python subscripting `seq[i]`: defined on lists, a `TypeError` on sets
(which do not support indexing), an `IndexError` out of range. -/
def PySeq.getitem : PySeq → Nat → Except PyError Node
  | PySeq.pylist xs, i =>
    match xs.get? i with
    | some n => Except.ok n
    | none => Except.error (PyError.typeError "list index out of range")
  | PySeq.pyset _, _ =>
    Except.error (PyError.typeError "a set object is not subscriptable")

/-- Modelled from the spec: `Graph.find_node_by_name` (core.common.graph,
not among the sampled sources) returns the collection of all nodes whose
name equals the given name.  The caller in
second_moment_correction_test.py line 226 subscripts the result with
index 0, so the collection is a Python list of the matching nodes, in
graph order. -/
def Graph.find_node_by_name (g : Graph) (name : String) : PySeq :=
  PySeq.pylist (g.nodes.filter (fun n => n.name == name))

/-- The claim C7 reading of the spec sentence, for comparison: the same
matching nodes returned as a Python set. -/
def Graph.find_node_by_name_as_set (g : Graph) (name : String) : PySeq :=
  PySeq.pyset (g.nodes.filter (fun n => n.name == name))

/-- Modelled from the spec: the second-moment correction overwrites a
BatchNormalization node's moving_mean and moving_variance with the measured
input statistics and leaves gamma and beta untouched. -/
def apply_second_moment_to_bn (bn : BNParams) (measured_mean measured_var : Rat) :
    BNParams :=
  { bn with moving_mean := measured_mean, moving_variance := measured_var }

/-- Modelled from the spec: the per-node action of the correction pass:
BatchNormalization nodes for which the semi-quantized forward passes
measured input statistics get their moving moments overwritten; every other
node is untouched. -/
def correctNode (stats : String → Option (Rat × Rat)) (n : Node) : Node :=
  if n.layer_is_bn = true then
    match stats n.name with
    | some (m, v) => { n with bn := apply_second_moment_to_bn n.bn m v }
    | none => n
  else
    n

/-- Modelled from the spec: the graph-level second-moment correction,
rewriting each node in place via `correctNode`. -/
def correctGraph (stats : String → Option (Rat × Rat)) (g : Graph) : Graph :=
  { nodes := g.nodes.map (correctNode stats) }

/-! ### A store of heap objects

Python object identity is modelled by a store: cells indexed by `Nat`
references, `next` being the first unallocated reference. -/

/-- A heap of objects of type `α`: `mem` maps references to objects (cells
at or beyond `next` are unallocated junk), `next` is the next fresh
reference. -/
structure Store (α : Type) where
  mem : Nat → α
  next : Nat

/-- Overwrite the object at reference `r` (Python in-place mutation). -/
def Store.setRef {α : Type} (s : Store α) (r : Nat) (a : α) : Store α :=
  { mem := fun i => if i = r then a else s.mem i, next := s.next }

/-- Allocate a fresh cell holding `a`, returning the new store and the fresh
reference. -/
def Store.alloc {α : Type} (s : Store α) (a : α) : Store α × Nat :=
  ({ mem := fun i => if i = s.next then a else s.mem i, next := s.next + 1 }, s.next)

/-- `copy.deepcopy(tg)` on a graph reference: allocates an independent copy
of the referenced graph and returns its fresh reference; no mutable state is
shared with the original. -/
def graphDeepcopy (s : Store Graph) (r : Nat) : Store Graph × Nat :=
  Store.alloc s (s.mem r)

/-- `keras_apply_second_moment_correction(...)` as invoked by the test on
the copied graph reference: mutates the referenced graph in place via the
spec-modelled `correctGraph` and touches no other cell. -/
def applySecondMomentAt (s : Store Graph) (r : Nat)
    (stats : String → Option (Rat × Rat)) : Store Graph :=
  Store.setRef s r (correctGraph stats (s.mem r))

/-- `ValueSecondMomentTest.prepare_graph` after `core_runner` returned the
graph referenced by `tg` (second_moment_correction_test.py lines 271 to
280): deep-copy `tg`, build the semi-quantized model from the copy and
apply the second-moment correction to the copy, then return both the
original reference and the corrected copy reference. -/
def prepare_graph (s : Store Graph) (tg : Nat)
    (stats : String → Option (Rat × Rat)) : Store Graph × Nat × Nat :=
  let copied := graphDeepcopy s tg
  (applySecondMomentAt copied.1 copied.2 stats, tg, copied.2)

/-! ### The shared mutable default argument

`lsb_change_per_bit_width` defaults to `DefaultDict` of an empty dict with
factory `lambda: 1` in both constructor signatures of gptq_config.py.
Python evaluates a default argument expression once, when the enclosing
`def` is executed (at class-definition time while the module loads), so
every call that omits the argument receives a reference to that one
object. -/

/-- The reference to the default `DefaultDict` object evaluated once for the
`GradientPTQConfig.__init__` signature at module load. -/
def v1LsbDefaultRef : Nat := 0

/-- The reference to the default `DefaultDict` object evaluated once for the
`GradientPTQConfigV2.__init__` signature at module load. -/
def v2LsbDefaultRef : Nat := 1

/-- The `DefaultDict` heap right after gptq_config.py is loaded: the two
default-argument objects (one per constructor signature) are allocated. -/
def moduleLoadStore : Store DefaultDict :=
  { mem := fun _ => defaultLsbChange, next := 2 }

/-- Constructing a `GradientPTQConfig` without an explicit
`lsb_change_per_bit_width` argument: the instance field receives the
reference to the shared default object; no allocation happens. -/
def constructV1WithoutLsbArg (s : Store DefaultDict) : Store DefaultDict × Nat :=
  (s, v1LsbDefaultRef)

/-- Constructing a `GradientPTQConfigV2` without an explicit
`lsb_change_per_bit_width` argument: likewise, the V2 shared default. -/
def constructV2WithoutLsbArg (s : Store DefaultDict) : Store DefaultDict × Nat :=
  (s, v2LsbDefaultRef)

/-- Mutating the `DefaultDict` held by an instance whose
`lsb_change_per_bit_width` field is the reference `r` (a dict assignment
through the instance). -/
def mutateLsbThrough (s : Store DefaultDict) (r : Nat) (k v : Int) :
    Store DefaultDict :=
  Store.setRef s r ((s.mem r).setKey k v)

/-- Reading a key of the `DefaultDict` held by an instance whose
`lsb_change_per_bit_width` field is the reference `r`. -/
def readLsbThrough (s : Store DefaultDict) (r : Nat) (k : Int) : Int :=
  (s.mem r).getKey k

/-! ### node_to_dispatcher.py -/

/-- `node.output_shape` of a Keras node: either a single shape tuple or a
Python list of shape tuples (one per output); dimensions may be `None`. -/
inductive OutputShape
  | single (shape : List (Option Int))
  | multi (shapes : List (List (Option Int)))
deriving DecidableEq, Repr

/-- `len(node.output_shape) if isinstance(node.output_shape, list) else 1`
from get_quantization_dispatcher. -/
def OutputShape.numOutputs : OutputShape → Nat
  | OutputShape.single _ => 1
  | OutputShape.multi shapes => shapes.length

/-- A node as read by get_quantization_dispatcher: its op type (the key into
the kernel-attribute registry), the two quantization-enabled flags, and its
output shape. -/
structure WrappedNode where
  node_type : String
  weights_quantization_enabled : Bool
  activation_quantization_enabled : Bool
  output_shape : OutputShape
deriving DecidableEq, Repr

/-- `node.is_weights_quantization_enabled()`. -/
def WrappedNode.is_weights_quantization_enabled (n : WrappedNode) : Bool :=
  n.weights_quantization_enabled

/-- `node.is_activation_quantization_enabled()`. -/
def WrappedNode.is_activation_quantization_enabled (n : WrappedNode) : Bool :=
  n.activation_quantization_enabled

/-- The `KerasNodeQuantizationDispatcher` built by node_to_dispatcher.py:
a weight-quantizer map (attribute name to quantizer object, objects
identified by heap reference) and an activation-quantizer list. -/
structure KerasNodeQuantizationDispatcher where
  weight_quantizers : List (String × Nat)
  activation_quantizers : List Nat
deriving DecidableEq, Repr

/-- `get_quantization_dispatcher` from node_to_dispatcher.py.  The external
collaborators are parameters: `kernelAttrs` models
`DEFAULT_KERAS_INFO.get_kernel_op_attributes(node.type)`, and
`weightsQuantizerFor` / `activationsQuantizerFor` model the quantizer
objects returned by `get_weights_quantizer_for_node(node)` and
`get_activations_quantizer_for_node(node)` (node_to_quantizer.py, outside
the sampled sources), identified by reference.  Each is called at most
once, so every map entry shares the one weight-quantizer object and every
list entry shares the one activation-quantizer object. -/
def get_quantization_dispatcher
    (kernelAttrs : String → List String)
    (weightsQuantizerFor activationsQuantizerFor : WrappedNode → Nat)
    (node : WrappedNode) : KerasNodeQuantizationDispatcher :=
  let weight_quantizers : List (String × Nat) :=
    if node.is_weights_quantization_enabled then
      let weight_attrs := kernelAttrs node.node_type
      let weight_quantizer := weightsQuantizerFor node
      weight_attrs.map (fun attr => (attr, weight_quantizer))
    else
      []
  let activation_quantizers : List Nat :=
    if node.is_activation_quantization_enabled then
      let num_of_outputs := node.output_shape.numOutputs
      List.replicate num_of_outputs (activationsQuantizerFor node)
    else
      []
  { weight_quantizers := weight_quantizers,
    activation_quantizers := activation_quantizers }

/-! ### Concrete instances used by witnesses and counterexamples -/

/-- A concrete valid V1 argument record: 500 training iterations, the
default SoftQuantizer rounding and its matching default quantizer config. -/
def exampleV1 : GradientPTQConfig :=
  { n_iter := some 500
    optimizer := PyAny.obj
    optimizer_rest := PyAny.obj
    loss := PyAny.obj
    log_function := PyAny.obj
    train_bias := true
    quantization_parameters_learning := false
    rounding_type := RoundingType.SoftQuantizer
    lsb_change_per_bit_width := defaultLsbChange
    eps := 1 / 1000000
    use_jac_based_weights := true
    num_samples_for_loss := 16
    norm_weights := false
    optimizer_quantization_parameter := PyAny.obj
    optimizer_bias := PyAny.obj
    log_norm := true
    weights_n_iter := 50
    quantizer_config := defaultSoftQuantizerConfig }

/-- A concrete mismatched argument record: STE rounding left with the
default `SoftQuantizerConfig` quantizer config. -/
def exampleSteMismatch : GradientPTQConfig :=
  { exampleV1 with rounding_type := RoundingType.STE }

/-- A concrete argument record combining quantization-parameter learning
with STE rounding (and an otherwise matching exact `GPTQQuantizerConfig`). -/
def exampleQplSte : GradientPTQConfig :=
  { exampleV1 with
      quantization_parameters_learning := true
      rounding_type := RoundingType.STE
      quantizer_config := { ty := PyClass.GPTQQuantizerConfig, n_batches := 50 } }

/-- The V2 argument record with the fields of `exampleQplSte` and an epoch
count. -/
def exampleQplSteV2 : GradientPTQConfigV2 :=
  { exampleQplSte with n_epochs := 50 }

/-- A concrete valid V2 instance with SoftQuantizer rounding. -/
def exampleV2 : GradientPTQConfigV2 :=
  { exampleV1 with n_epochs := 50 }

/-- A BatchNormalization node at its initialization values (gamma 1, beta 0,
moving_mean 0, moving_variance 1), as built by the second-moment tests. -/
def exampleBNNode : Node :=
  { name := "bn1"
    layer_is_bn := true
    bn := { gamma := 1, beta := 0, moving_mean := 0, moving_variance := 1 } }

/-- The convolution node preceding the BatchNormalization in the test
network (its `bn` field is meaningless junk since `layer_is_bn` is false). -/
def exampleConvNode : Node :=
  { name := "conv1"
    layer_is_bn := false
    bn := { gamma := 1, beta := 0, moving_mean := 0, moving_variance := 1 } }

/-- The two-node test graph: convolution followed by batch normalization. -/
def exampleGraph : Graph :=
  { nodes := [exampleConvNode, exampleBNNode] }

/-- Measured input statistics of the test scenario: the BatchNormalization
input has mean 8 and variance 1/4 (Gaussian inputs with mean 8.0 and
standard deviation 0.5). -/
def exampleStats : String → Option (Rat × Rat) :=
  fun name => if name = "bn1" then some (8, 1 / 4) else none

/-- A one-graph store whose cell 0 holds the test graph, as left by
`core_runner`. -/
def exampleGraphStore : Store Graph :=
  { mem := fun _ => exampleGraph, next := 1 }

/-- A concrete kernel-attribute registry: the test node type has the single
kernel attribute named kernel. -/
def exampleKernelAttrs : String → List String :=
  fun ty => if ty = "Conv2D" then ["kernel"] else []

/-- A concrete weight-quantizer allocator (object reference 7). -/
def exampleWeightsQuantizerFor : WrappedNode → Nat := fun _ => 7

/-- A concrete activation-quantizer allocator (object reference 8). -/
def exampleActivationsQuantizerFor : WrappedNode → Nat := fun _ => 8

/-- A concrete node with both quantizations enabled and a two-output shape
list. -/
def exampleWrappedNode : WrappedNode :=
  { node_type := "Conv2D"
    weights_quantization_enabled := true
    activation_quantization_enabled := true
    output_shape := OutputShape.multi [[none, some 32, some 32, some 1],
                                       [none, some 32, some 32, some 1]] }

/-! ### Helper lemmas -/

/-- A quantizer config whose runtime type mismatches the rounding type fails
`_verify_quantizer_config`. -/
theorem verify_quantizer_config_eq_false_of_mismatch
    (qc : QuantizerConfig) (rt : RoundingType)
    (h : (rt = RoundingType.SoftQuantizer ∧ qc.ty ≠ PyClass.SoftQuantizerConfig) ∨
         (rt = RoundingType.STE ∧ qc.ty ≠ PyClass.GPTQQuantizerConfig)) :
    GradientPTQConfig.verify_quantizer_config qc rt = false := by
  rcases h with ⟨hrt, hty⟩ | ⟨hrt, hty⟩ <;> subst hrt <;>
    simp [GradientPTQConfig.verify_quantizer_config] <;> exact hty

/-! ### Claim theorems -/

/-- C1: for every constructor argument record whose rounding type and
quantizer-config runtime type mismatch (SoftQuantizer rounding with a config
not exactly of type SoftQuantizerConfig, or STE rounding with a config not
exactly of type GPTQQuantizerConfig), constructing a `GradientPTQConfig`
halts with a ConfigurationError and produces no usable instance. -/
theorem C1_mismatched_quantizer_config_rejected (a : GradientPTQConfig)
    (h : (a.rounding_type = RoundingType.SoftQuantizer ∧
            a.quantizer_config.ty ≠ PyClass.SoftQuantizerConfig) ∨
         (a.rounding_type = RoundingType.STE ∧
            a.quantizer_config.ty ≠ PyClass.GPTQQuantizerConfig)) :
    ∃ msg, GradientPTQConfig.construct a =
      Except.error (PyError.configurationError msg) := by
  have hv := verify_quantizer_config_eq_false_of_mismatch a.quantizer_config
    a.rounding_type h
  unfold GradientPTQConfig.construct
  split
  · exact ⟨steQplErrorMsg, rfl⟩
  · rw [hv]
    exact ⟨mismatchErrorMsg a.quantizer_config.ty a.rounding_type, rfl⟩

/-- C1 witness: STE rounding with the default SoftQuantizerConfig quantizer
config is rejected at construction. -/
theorem C1_witness :
    ∃ msg, GradientPTQConfig.construct exampleSteMismatch =
      Except.error (PyError.configurationError msg) :=
  C1_mismatched_quantizer_config_rejected exampleSteMismatch
    (Or.inr ⟨rfl, by decide⟩)

/-- C2: constructing a `GradientPTQConfig` or a `GradientPTQConfigV2` with
quantization-parameter learning enabled together with STE rounding halts
with the dedicated ConfigurationError instead of producing an instance. -/
theorem C2_qpl_with_ste_rejected (a : GradientPTQConfig) (b : GradientPTQConfigV2)
    (ha1 : a.quantization_parameters_learning = true)
    (ha2 : a.rounding_type = RoundingType.STE)
    (hb1 : b.quantization_parameters_learning = true)
    (hb2 : b.rounding_type = RoundingType.STE) :
    GradientPTQConfig.construct a =
      Except.error (PyError.configurationError steQplErrorMsg) ∧
    GradientPTQConfigV2.construct b =
      Except.error (PyError.configurationError steQplErrorMsg) := by
  constructor
  · unfold GradientPTQConfig.construct
    rw [if_pos ⟨ha1, ha2⟩]
  · unfold GradientPTQConfigV2.construct GradientPTQConfig.construct
    rw [if_pos ⟨hb1, hb2⟩]

/-- C2 witness: the concrete argument records with
quantization-parameter learning and STE rounding are both rejected. -/
theorem C2_witness :
    GradientPTQConfig.construct exampleQplSte =
      Except.error (PyError.configurationError steQplErrorMsg) ∧
    GradientPTQConfigV2.construct exampleQplSteV2 =
      Except.error (PyError.configurationError steQplErrorMsg) :=
  C2_qpl_with_ste_rejected exampleQplSte exampleQplSteV2 rfl rfl rfl rfl

/-- C3: for any successfully constructed V1 config holding `n_iter = k` and
any nonzero representative-dataset length `p`, `from_v1` succeeds and the
resulting V2 config has `n_epochs` equal to the Python value of
`int(round(k) / p)`, the quotient truncated toward zero. -/
theorem C3_from_v1_epoch_count (a c : GradientPTQConfig) (k p : Int)
    (hc : GradientPTQConfig.construct a = Except.ok c)
    (hk : c.n_iter = some k) (hp : p ≠ 0) :
    ∃ v2, GradientPTQConfigV2.from_v1 p c = Except.ok v2 ∧
      v2.n_epochs = Int.tdiv k p := by
  unfold GradientPTQConfig.construct at hc
  split at hc
  · exact absurd hc (by simp)
  case isFalse h1 =>
    split at hc
    case isTrue h2 =>
      obtain rfl : a = c := Except.ok.inj hc
      refine ⟨⟨{ a with n_iter := none }, Int.tdiv k p⟩, ?_, rfl⟩
      simp [GradientPTQConfigV2.from_v1, pythonIntOfRoundDiv, hk, hp,
            GradientPTQConfigV2.construct, GradientPTQConfig.construct, h1, h2]
    case isFalse => exact absurd hc (by simp)

/-- C3 witness: converting the concrete V1 config with 500 iterations at a
representative-dataset length of 10 yields a V2 config with 50 epochs. -/
theorem C3_witness :
    ∃ v2, GradientPTQConfigV2.from_v1 10 exampleV1 = Except.ok v2 ∧
      v2.n_epochs = 50 := by
  obtain ⟨v2, h1, h2⟩ :=
    C3_from_v1_epoch_count exampleV1 exampleV1 500 10 rfl rfl (by decide)
  refine ⟨v2, h1, ?_⟩
  rw [h2]
  decide

/-- C4: on a BatchNormalization node whose measured input statistics differ
from its stored moments, the second-moment correction leaves gamma and beta
exactly equal to their pre-correction values while moving_mean and
moving_variance strictly change. -/
theorem C4_second_moment_preserves_gamma_beta (n : Node) (m v : Rat)
    (stats : String → Option (Rat × Rat))
    (hbn : n.layer_is_bn = true) (hstat : stats n.name = some (m, v))
    (hm : m ≠ n.bn.moving_mean) (hv : v ≠ n.bn.moving_variance) :
    (correctNode stats n).bn.gamma = n.bn.gamma ∧
    (correctNode stats n).bn.beta = n.bn.beta ∧
    (correctNode stats n).bn.moving_mean ≠ n.bn.moving_mean ∧
    (correctNode stats n).bn.moving_variance ≠ n.bn.moving_variance := by
  have hcn : correctNode stats n =
      { n with bn := apply_second_moment_to_bn n.bn m v } := by
    simp [correctNode, hbn, hstat]
  rw [hcn]
  exact ⟨rfl, rfl, hm, hv⟩

/-- C4 witness: the BatchNormalization node initialized with gamma 1,
beta 0, moving_mean 0, moving_variance 1, corrected against measured input
mean 8 and variance 1/4, keeps gamma and beta and changes both moments. -/
theorem C4_witness :
    (correctNode exampleStats exampleBNNode).bn.gamma = exampleBNNode.bn.gamma ∧
    (correctNode exampleStats exampleBNNode).bn.beta = exampleBNNode.bn.beta ∧
    (correctNode exampleStats exampleBNNode).bn.moving_mean ≠
      exampleBNNode.bn.moving_mean ∧
    (correctNode exampleStats exampleBNNode).bn.moving_variance ≠
      exampleBNNode.bn.moving_variance :=
  C4_second_moment_preserves_gamma_beta exampleBNNode 8 (1 / 4) exampleStats
    rfl rfl (by show (8 : Rat) ≠ 0; norm_num) (by show (1 / 4 : Rat) ≠ 1; norm_num)

/-- C5 counterexample: the method `get_extended_quantizer_parametes` is not
among the methods of `GradientPTQConfig`; only `GradientPTQConfigV2`
resolves it.  The claim that both classes expose it is therefore false. -/
theorem C5_counterexample :
    "get_extended_quantizer_parametes" ∉ GradientPTQConfig.methodNames ∧
    "get_extended_quantizer_parametes" ∈ GradientPTQConfigV2.methodNames := by
  constructor <;> decide

/-- C5 (amended): `GradientPTQConfigV2` (alone) exposes
`get_extended_quantizer_parametes`, and it returns, for SoftQuantizer
rounding, exactly the batch-count, quantization-parameter-learning and
epoch-count entries, and for STE rounding exactly the max-LSB mapping. -/
theorem C5_extended_parameters_by_rounding_type (c : GradientPTQConfigV2) :
    (c.rounding_type = RoundingType.SoftQuantizer →
      c.get_extended_quantizer_parametes =
        [(N_BATCHES_STR, ParamValue.ofInt c.quantizer_config.n_batches),
         (QUANT_PARAM_LEARNING_STR,
            ParamValue.ofBool c.quantization_parameters_learning),
         (N_EPOCHS_STR, ParamValue.ofInt c.n_epochs)]) ∧
    (c.rounding_type = RoundingType.STE →
      c.get_extended_quantizer_parametes =
        [(MAX_LSB_STR, ParamValue.ofDefaultDict c.lsb_change_per_bit_width)]) := by
  constructor <;> intro h <;>
    simp [GradientPTQConfigV2.get_extended_quantizer_parametes, h]

/-- C5 witness: the concrete SoftQuantizer V2 config yields exactly the
three SoftQuantizer entries. -/
theorem C5_witness :
    exampleV2.get_extended_quantizer_parametes =
      [(N_BATCHES_STR, ParamValue.ofInt exampleV2.quantizer_config.n_batches),
       (QUANT_PARAM_LEARNING_STR,
          ParamValue.ofBool exampleV2.quantization_parameters_learning),
       (N_EPOCHS_STR, ParamValue.ofInt exampleV2.n_epochs)] :=
  (C5_extended_parameters_by_rounding_type exampleV2).1 rfl

/-- C6: quantizer-config compatibility is decided by exact runtime type
equality: under STE rounding exactly `GPTQQuantizerConfig` passes and under
SoftQuantizer rounding exactly `SoftQuantizerConfig` passes, so every
object of a strict subclass of `GPTQQuantizerConfig` is rejected for STE
even though `isinstance` of `GPTQQuantizerConfig` holds of it. -/
theorem C6_verify_uses_exact_type_equality :
    (∀ qc : QuantizerConfig,
        GradientPTQConfig.verify_quantizer_config qc RoundingType.STE = true ↔
          qc.ty = PyClass.GPTQQuantizerConfig) ∧
    (∀ qc : QuantizerConfig,
        GradientPTQConfig.verify_quantizer_config qc RoundingType.SoftQuantizer = true ↔
          qc.ty = PyClass.SoftQuantizerConfig) ∧
    (∀ qc : QuantizerConfig,
        qc.ty.isInstanceOfGPTQQuantizerConfig = true ∧
          qc.ty ≠ PyClass.GPTQQuantizerConfig →
        GradientPTQConfig.verify_quantizer_config qc RoundingType.STE = false) := by
  refine ⟨?_, ?_, ?_⟩
  · intro qc
    simp [GradientPTQConfig.verify_quantizer_config]
  · intro qc
    simp [GradientPTQConfig.verify_quantizer_config]
  · intro qc h
    simp [GradientPTQConfig.verify_quantizer_config]
    exact h.2

/-- C6 witness: the default `SoftQuantizerConfig` object is an instance of
`GPTQQuantizerConfig` by inheritance, yet it is rejected for STE rounding,
and it is accepted for SoftQuantizer rounding. -/
theorem C6_witness :
    defaultSoftQuantizerConfig.ty.isInstanceOfGPTQQuantizerConfig = true ∧
    GradientPTQConfig.verify_quantizer_config defaultSoftQuantizerConfig
      RoundingType.STE = false ∧
    GradientPTQConfig.verify_quantizer_config defaultSoftQuantizerConfig
      RoundingType.SoftQuantizer = true :=
  ⟨rfl,
   (C6_verify_uses_exact_type_equality).2.2 defaultSoftQuantizerConfig
     ⟨rfl, by decide⟩,
   ((C6_verify_uses_exact_type_equality).2.1 defaultSoftQuantizerConfig).2 rfl⟩

/-- C7 counterexample: on the embedded second-moment test graph, the
collection `find_node_by_name` hands back is a Python list, not a set:
the subscripting `find_node_by_name(node.name)[0]` performed by the test at
second_moment_correction_test.py line 226 succeeds on it, whereas on the
set the claim describes the same subscript raises a TypeError. -/
theorem C7_counterexample :
    (Graph.find_node_by_name exampleGraph "bn1").isSet = false ∧
    PySeq.getitem (Graph.find_node_by_name exampleGraph "bn1") 0 =
      Except.ok exampleBNNode ∧
    PySeq.getitem (Graph.find_node_by_name_as_set exampleGraph "bn1") 0 =
      Except.error (PyError.typeError "a set object is not subscriptable") := by
  refine ⟨rfl, ?_, rfl⟩
  rfl

/-- C7 (amended): `find_node_by_name` returns the Python list of exactly
those nodes whose name equals the given name (all matches, in graph order,
rather than a single node), and that list supports indexing. -/
theorem C7_find_node_by_name_returns_matching_list (g : Graph) (name : String) :
    ∃ xs, Graph.find_node_by_name g name = PySeq.pylist xs ∧
      ∀ n, n ∈ xs ↔ n ∈ g.nodes ∧ n.name = name := by
  refine ⟨g.nodes.filter (fun n => n.name == name), rfl, ?_⟩
  intro n
  simp [List.mem_filter]

/-- C7 witness: on the concrete test graph, the matching nodes for the
BatchNormalization name are characterized by membership and name equality. -/
theorem C7_witness :
    ∃ xs, Graph.find_node_by_name exampleGraph "bn1" = PySeq.pylist xs ∧
      ∀ n, n ∈ xs ↔ n ∈ exampleGraph.nodes ∧ n.name = "bn1" :=
  C7_find_node_by_name_returns_matching_list exampleGraph "bn1"

/-- C8: the second-moment stage of `prepare_graph` works on a deep copy:
for any allocated graph reference `tg`, after the copy is built and
corrected, the cell of `tg` still holds exactly the graph `core_runner`
returned (the pre-correction parameters), while the returned copy
reference holds the corrected graph. -/
theorem C8_prepare_graph_leaves_original_untouched (s : Store Graph) (tg : Nat)
    (stats : String → Option (Rat × Rat)) (h : tg < s.next) :
    (prepare_graph s tg stats).1.mem tg = s.mem tg ∧
    (prepare_graph s tg stats).1.mem (prepare_graph s tg stats).2.2 =
      correctGraph stats (s.mem tg) := by
  have htg : tg ≠ s.next := Nat.ne_of_lt h
  unfold prepare_graph graphDeepcopy applySecondMomentAt Store.alloc Store.setRef
  simp [htg]

/-- C8 witness: in the one-graph store produced by the embedded
`core_runner` result, the original cell is untouched by the correction and
the copy cell holds the corrected graph. -/
theorem C8_witness :
    (prepare_graph exampleGraphStore 0 exampleStats).1.mem 0 =
      exampleGraphStore.mem 0 ∧
    (prepare_graph exampleGraphStore 0 exampleStats).1.mem
        (prepare_graph exampleGraphStore 0 exampleStats).2.2 =
      correctGraph exampleStats (exampleGraphStore.mem 0) :=
  C8_prepare_graph_leaves_original_untouched exampleGraphStore 0 exampleStats
    (by decide)

/-- C9: the default argument `DefaultDict` of both constructors is evaluated
once at class-definition time, so any two configs constructed without an
explicit `lsb_change_per_bit_width` argument hold the same reference
(per constructor signature), and a key set through one instance is read
back through the other. -/
theorem C9_shared_mutable_default_lsb_dict (s : Store DefaultDict) (k v : Int) :
    (constructV1WithoutLsbArg s).2 =
      (constructV1WithoutLsbArg (constructV1WithoutLsbArg s).1).2 ∧
    readLsbThrough
        (mutateLsbThrough (constructV1WithoutLsbArg (constructV1WithoutLsbArg s).1).1
          (constructV1WithoutLsbArg s).2 k v)
        (constructV1WithoutLsbArg (constructV1WithoutLsbArg s).1).2 k = v ∧
    (constructV2WithoutLsbArg s).2 =
      (constructV2WithoutLsbArg (constructV2WithoutLsbArg s).1).2 ∧
    readLsbThrough
        (mutateLsbThrough (constructV2WithoutLsbArg (constructV2WithoutLsbArg s).1).1
          (constructV2WithoutLsbArg s).2 k v)
        (constructV2WithoutLsbArg (constructV2WithoutLsbArg s).1).2 k = v := by
  refine ⟨rfl, ?_, rfl, ?_⟩ <;>
    simp [constructV1WithoutLsbArg, constructV2WithoutLsbArg, readLsbThrough,
          mutateLsbThrough, Store.setRef, DefaultDict.setKey, DefaultDict.getKey,
          List.lookup]

/-- Mapping every element to a pair with a constant second component and
projecting the first components back is the identity. -/
theorem map_fst_pair_const {α β : Type} (xs : List α) (b : β) :
    (xs.map (fun x => (x, b))).map Prod.fst = xs := by
  induction xs with
  | nil => rfl
  | cons x xs ih => simp [ih]

/-- Every pair built with a constant second component carries that value. -/
theorem snd_eq_of_mem_pair_const {α β : Type} (xs : List α) (b : β) :
    ∀ p ∈ xs.map (fun x => (x, b)), p.2 = b := by
  intro p hp
  simp only [List.mem_map] at hp
  obtain ⟨x, _, rfl⟩ := hp
  rfl

/-- C10: the dispatcher built for a node maps, when weights quantization is
enabled, exactly the node kernel attributes and all of them to the one
weight-quantizer object created for the node; when activation quantization
is enabled its activation list has one entry per node output (the length of
`output_shape` when that is a list, else 1), all entries being the one
activation-quantizer object; each disabled side leaves its container
empty. -/
theorem C10_dispatcher_contents (kernelAttrs : String → List String)
    (weightsQuantizerFor activationsQuantizerFor : WrappedNode → Nat)
    (node : WrappedNode) :
    (node.weights_quantization_enabled = true →
      (get_quantization_dispatcher kernelAttrs weightsQuantizerFor
          activationsQuantizerFor node).weight_quantizers.map Prod.fst =
        kernelAttrs node.node_type ∧
      ∀ p ∈ (get_quantization_dispatcher kernelAttrs weightsQuantizerFor
          activationsQuantizerFor node).weight_quantizers,
        p.2 = weightsQuantizerFor node) ∧
    (node.weights_quantization_enabled = false →
      (get_quantization_dispatcher kernelAttrs weightsQuantizerFor
          activationsQuantizerFor node).weight_quantizers = []) ∧
    (node.activation_quantization_enabled = true →
      (get_quantization_dispatcher kernelAttrs weightsQuantizerFor
          activationsQuantizerFor node).activation_quantizers.length =
        node.output_shape.numOutputs ∧
      ∀ q ∈ (get_quantization_dispatcher kernelAttrs weightsQuantizerFor
          activationsQuantizerFor node).activation_quantizers,
        q = activationsQuantizerFor node) ∧
    (node.activation_quantization_enabled = false →
      (get_quantization_dispatcher kernelAttrs weightsQuantizerFor
          activationsQuantizerFor node).activation_quantizers = []) := by
  obtain ⟨nty, wqe, aqe, os⟩ := node
  refine ⟨fun h => ?_, fun h => ?_, fun h => ?_, fun h => ?_⟩ <;> subst h
  · exact ⟨map_fst_pair_const _ _, snd_eq_of_mem_pair_const _ _⟩
  · rfl
  · exact ⟨List.length_replicate _ _, fun q hq => List.eq_of_mem_replicate hq⟩
  · rfl

/-- C10 witness: on the concrete doubly-enabled two-output node, the
dispatcher maps exactly the kernel attribute and has a two-entry activation
list. -/
theorem C10_witness :
    (get_quantization_dispatcher exampleKernelAttrs exampleWeightsQuantizerFor
        exampleActivationsQuantizerFor exampleWrappedNode).weight_quantizers.map
        Prod.fst = exampleKernelAttrs exampleWrappedNode.node_type ∧
    (get_quantization_dispatcher exampleKernelAttrs exampleWeightsQuantizerFor
        exampleActivationsQuantizerFor exampleWrappedNode).activation_quantizers.length =
      exampleWrappedNode.output_shape.numOutputs :=
  ⟨((C10_dispatcher_contents exampleKernelAttrs exampleWeightsQuantizerFor
      exampleActivationsQuantizerFor exampleWrappedNode).1 rfl).1,
   ((C10_dispatcher_contents exampleKernelAttrs exampleWeightsQuantizerFor
      exampleActivationsQuantizerFor exampleWrappedNode).2.2.1 rfl).1⟩

end MCT
